import Mathlib

/-!
# Verification of the next-talk room/chat session core

Shallow embedding of `src/context/RoomContext.tsx` and
`src/context/ChatContext.tsx` (a Next.js WebRTC video-chat app).

The two context modules are translated into pure Lean definitions:
React state becomes explicit state records, event handlers become state
transition functions, and the asynchronous media APIs (`getUserMedia`,
`getDisplayMedia`) become functions parameterised over the outcome that the
browser would deliver.  The reducers imported from `../reducers`
(`peersReducer`, `chatReducer`) are not part of the repository snapshot under
`src/`; where a claim depends on them they are modelled from the spec, and
each such definition's doc comment says so.
-/

namespace NextTalk

/-! ## Media primitives

A `MediaStreamTrack` is modelled by its `kind` ("video" / "audio") and its
mutable `enabled` flag; a `MediaStream` is its list of tracks. -/

structure MediaTrack where
  kind : String
  enabled : Bool
  deriving DecidableEq, Repr

/-- A media stream, as the list of its tracks (`stream.getTracks()`). -/
abbrev Stream := List MediaTrack

/-! ## Peer registry (modelled from the spec)

`RoomContext.tsx` dispatches `addAllPeersAction`, `addPeerNameAction`,
`addPeerStreamAction` and `removePeerStreamAction` into `peersReducer`
(imported from `../reducers`, a file absent from `src/`). -/

/-- A registry entry: display name and (optional) remote stream, as in the
spec's Peer data model `{id, displayName, remoteStream}`.  Either field may be
unset when the entry was created by an update that only supplied the other. -/
structure PeerEntry where
  userName : Option String
  stream : Option Stream
  deriving DecidableEq, Repr

/-- The peer registry: association list from peer id to entry (first match
wins on lookup; operations below keep ids unique when the input is). -/
abbrev PeerState := List (String × PeerEntry)

namespace Registry

/-- Lookup of a peer id in the registry. -/
def lookup (ps : PeerState) (id : String) : Option PeerEntry :=
  (ps.find? (fun e => e.1 = id)).map (·.2)

/-- Modelled from the spec: `peersReducer`'s handling of
`removePeerStreamAction` lives in `../reducers`, which is not under `src/`.
Spec §4.1: "`remove(id)` deletes the entry entirely; removing a non-existent
id is a no-op." -/
def remove (ps : PeerState) (id : String) : PeerState :=
  ps.filter (fun e => e.1 ≠ id)

/-- Modelled from the spec: `peersReducer`'s handling of `addPeerNameAction`
is not under `src/`.  Spec §4.1: "`upsertName(id, name)` inserts or updates
display name, preserving any existing stream"; "unknown ids in update
operations create a new entry with only the updated field populated." -/
def upsertName (ps : PeerState) (id name : String) : PeerState :=
  match ps.find? (fun e => e.1 = id) with
  | some _ => ps.map (fun e => if e.1 = id then (e.1, { e.2 with userName := some name }) else e)
  | none => ps ++ [(id, ⟨some name, none⟩)]

/-- Modelled from the spec: `peersReducer`'s handling of `addPeerStreamAction`
is not under `src/`.  Spec §4.1: "`upsertStream(id, stream)` inserts or
updates the media stream, preserving any existing name." -/
def upsertStream (ps : PeerState) (id : String) (s : Stream) : PeerState :=
  match ps.find? (fun e => e.1 = id) with
  | some _ => ps.map (fun e => if e.1 = id then (e.1, { e.2 with stream := some s }) else e)
  | none => ps ++ [(id, ⟨none, some s⟩)]

/-- Modelled from the spec: `peersReducer`'s handling of `addAllPeersAction`
is not under `src/`.  Spec §4.1: "`replaceAll(map)` atomically replaces the
full membership." -/
def replaceAll (_ps snapshot : PeerState) : PeerState :=
  snapshot

end Registry

/-! ## Local media controller (`handleCameraToggle` / `handleAudioToggle`)

`RoomContext.tsx` lines 196-214:

```
function handleCameraToggle() {
  if (stream) {
    const tracks = stream.getVideoTracks();
    tracks.forEach((track) => {
      track.enabled = !track.enabled;
      setIsCameraOn(!isCameraOn);
    });
  }
}
```

When `stream` is absent the body does nothing at all.  When it is present,
every track of the selected kind has its `enabled` flag flipped in place;
`setIsCameraOn(!isCameraOn)` is run once per such track, but every run uses
the same render-scope value of `isCameraOn`, so after the updates are applied
the flag has flipped exactly once when at least one track of that kind
exists, and is unchanged otherwise. -/

/-- The local-media slice of `RoomProvider`'s state. -/
structure LocalMedia where
  stream : Option Stream
  isCameraOn : Bool
  isAudioOn : Bool
  deriving DecidableEq, Repr

/-- `track.enabled = !track.enabled` applied to the tracks of kind `k` only
(`getVideoTracks()` / `getAudioTracks()` select by kind). -/
def flipIfKind (k : String) (t : MediaTrack) : MediaTrack :=
  if t.kind = k then { t with enabled := !t.enabled } else t

/-- `handleCameraToggle` (`RoomContext.tsx` lines 196-204). -/
def handleCameraToggle (st : LocalMedia) : LocalMedia :=
  match st.stream with
  | none => st
  | some tracks =>
    { st with
      stream := some (tracks.map (flipIfKind "video")),
      isCameraOn :=
        if tracks.any (fun t => t.kind = "video") then !st.isCameraOn else st.isCameraOn }

/-- `handleAudioToggle` (`RoomContext.tsx` lines 206-214). -/
def handleAudioToggle (st : LocalMedia) : LocalMedia :=
  match st.stream with
  | none => st
  | some tracks =>
    { st with
      stream := some (tracks.map (flipIfKind "audio")),
      isAudioOn :=
        if tracks.any (fun t => t.kind = "audio") then !st.isAudioOn else st.isAudioOn }

/-! ## Chat (`ChatContext.tsx`) -/

/-- A chat message (`IMessage`); `timestamp` is `new Date().getTime()`. -/
structure IMessage where
  content : String
  timestamp : Nat
  author : String
  deriving DecidableEq, Repr

/-- `ChatState` of `ChatContext.tsx`. -/
structure ChatState where
  messages : List IMessage
  isChatOpen : Bool
  deriving DecidableEq, Repr

/-- The payload of the `send-message` emit: `ws.emit("send-message", roomId,
messageData)`. -/
structure SendMessagePayload where
  roomId : String
  messageData : IMessage
  deriving DecidableEq, Repr

/-- Modelled from the spec: `chatReducer`'s handling of `addMessageAction`
lives in `../reducers`, which is not under `src/`.  Spec §3: "messages:
append-only ordered sequence", and §8 scenario 4: `sendMessage` "appends" the
record to the ordered message sequence. -/
def addMessage (chat : ChatState) (m : IMessage) : ChatState :=
  { chat with messages := chat.messages ++ [m] }

/-- `sendMessage` (`ChatContext.tsx` lines 39-48): builds `messageData` from
the arguments and the current time, dispatches `addMessageAction(messageData)`
and emits `send-message` with `(roomId, messageData)`.  The current time is an
explicit parameter `now`. -/
def sendMessage (chat : ChatState) (message roomId author : String) (now : Nat) :
    ChatState × SendMessagePayload :=
  let messageData : IMessage := ⟨message, now, author⟩
  (addMessage chat messageData, ⟨roomId, messageData⟩)

/-! ## Signaling-event handlers of `RoomProvider`

`RoomContext.tsx` lines 139-144 install one handler per signaling event:

```
ws.on("room-created", enterRoom);
ws.on("get-users", getUsers);
ws.on("user-disconnected", removePeer);
ws.on("user-started-sharing", (peerId) => setScreenSharingId(peerId));
ws.on("user-stopped-sharing", () => setScreenSharingId(""));
ws.on("name-changed", nameChangedHandler);
```

The state those handlers touch is the `peers` reducer state and the
`screenSharingId` string (`room-created` only navigates, so it is a no-op on
this state). -/

/-- The registry-and-arbiter slice of `RoomProvider`'s state. -/
structure RoomSessionState where
  peers : PeerState
  screenSharingId : String
  deriving DecidableEq, Repr

/-- The signaling events handled by the subscriptions of lines 139-144. -/
inductive WsEvent where
  | roomCreated (roomId : String)
  | getUsers (participants : PeerState)
  | userDisconnected (peerId : String)
  | userStartedSharing (peerId : String)
  | userStoppedSharing
  | nameChanged (peerId userName : String)
  deriving DecidableEq, Repr

/-- One signaling event applied to the registry/arbiter state, following the
handlers of `RoomContext.tsx` lines 139-144 (`getUsers`, `removePeer`,
`nameChangedHandler` and the two inline arrow functions; `enterRoom` only
calls `push` and leaves this state unchanged). -/
def handleWsEvent (st : RoomSessionState) : WsEvent → RoomSessionState
  | .roomCreated _ => st
  | .getUsers participants => { st with peers := Registry.replaceAll st.peers participants }
  | .userDisconnected peerId => { st with peers := Registry.remove st.peers peerId }
  | .userStartedSharing peerId => { st with screenSharingId := peerId }
  | .userStoppedSharing => { st with screenSharingId := "" }
  | .nameChanged peerId userName => { st with peers := Registry.upsertName st.peers peerId userName }

/-- Folding a sequence of signaling events. -/
def handleWsEvents (st : RoomSessionState) (evts : List WsEvent) : RoomSessionState :=
  evts.foldl handleWsEvent st

/-! ## Screen sharing: `switchStream` and `shareScreen`

`RoomContext.tsx` lines 73-98.  `switchStream(newStream)` returns immediately
when `me` is null; otherwise it sets `screenSharingId` to `me.id || ""` and,
for every entry of `me.connections`, finds the video track of `newStream`
and, when one exists, replaces the track of the first sender whose current
track has kind "video" (`getSenders().find(sender => sender.track?.kind ===
"video")?.replaceTrack(videoTrack)`).  `shareScreen()` branches on the
truthiness of `screenSharingId`: non-empty means the local user is currently
sharing, so a fresh camera capture is requested via `getUserMedia` and handed
to `switchStream`; empty means a screen capture is requested via
`getDisplayMedia`, handed to `switchStream`, and stored in `screenStream`.
The asynchronous capture is modelled by splitting `shareScreen` into the
request it issues (`shareScreenRequest`) and the continuation applied to the
captured stream (`shareScreenResolve`). -/

/-- An `RTCRtpSender` slot: its (possibly null) current track. -/
structure SenderSlot where
  track : Option MediaTrack
  deriving DecidableEq, Repr

/-- One peer connection: `connection[0].peerConnection.getSenders()`. -/
structure RTCConnection where
  senders : List SenderSlot
  deriving DecidableEq, Repr

/-- The local PeerJS handle `me`: its id and `Object.values(me.connections)`
(each value's first element's underlying sender list). -/
structure PeerHandle where
  id : String
  connections : List RTCConnection
  deriving DecidableEq, Repr

/-- The slice of `RoomProvider`'s state that `shareScreen` reads and
writes. -/
structure ShareState where
  me : Option PeerHandle
  screenSharingId : String
  screenStream : Option Stream
  deriving DecidableEq, Repr

/-- `sender.track?.kind === "video"`. -/
def isVideoSender (s : SenderSlot) : Bool :=
  match s.track with
  | some t => t.kind = "video"
  | none => false

/-- `getSenders().find(sender => sender.track?.kind === "video")
?.replaceTrack(videoTrack)`: the first video sender's track is replaced,
later senders are untouched; with no video sender nothing changes. -/
def replaceFirstVideoSender (videoTrack : MediaTrack) : List SenderSlot → List SenderSlot
  | [] => []
  | s :: rest =>
    if isVideoSender s then ⟨some videoTrack⟩ :: rest
    else s :: replaceFirstVideoSender videoTrack rest

/-- `switchStream` (`RoomContext.tsx` lines 73-87).  `me.id || ""` equals
`me.id` for every string id (both sides are `""` when the id is empty), so it
is modelled as `m.id`. -/
def switchStream (st : ShareState) (newStream : Stream) : ShareState :=
  match st.me with
  | none => st
  | some m =>
    match newStream.find? (fun track => track.kind = "video") with
    | some videoTrack =>
      { st with
        screenSharingId := m.id,
        me := some { m with
          connections := m.connections.map
            (fun c => ⟨replaceFirstVideoSender videoTrack c.senders⟩) } }
    | none => { st with screenSharingId := m.id }

/-- The capture kinds `shareScreen` can request. -/
inductive CaptureRequest where
  | getUserMedia
  | getDisplayMedia
  deriving DecidableEq, Repr

/-- Which capture `shareScreen` requests (`RoomContext.tsx` lines 89-98):
`getUserMedia` when `screenSharingId` is truthy (the local stop path),
`getDisplayMedia` otherwise. -/
def shareScreenRequest (st : ShareState) : CaptureRequest :=
  if st.screenSharingId ≠ "" then .getUserMedia else .getDisplayMedia

/-- The continuation `shareScreen` runs once the requested capture resolves
with stream `captured`: the stop path only calls `switchStream`; the start
path also stores the capture in `screenStream`. -/
def shareScreenResolve (st : ShareState) (captured : Stream) : ShareState :=
  if st.screenSharingId ≠ "" then switchStream st captured
  else
    let st' := switchStream st captured
    { st' with screenStream := some captured }

/-- A concrete outbound connection with one video sender. -/
def demoConnection : RTCConnection := ⟨[⟨some ⟨"video", true⟩⟩]⟩

/-- A concrete local peer handle with one connection. -/
def demoPeer : PeerHandle := ⟨"p1", [demoConnection]⟩

/-- A concrete state in which the local user `p1` is the current sharer. -/
def demoSharingState : ShareState := ⟨some demoPeer, "p1", none⟩

/-- A concrete camera capture: one video and one audio track. -/
def demoCamStream : Stream := [⟨"video", true⟩, ⟨"audio", true⟩]

/-! ## Connection orchestrator: the `user-joined` effect

`RoomContext.tsx` lines 167-180: the effect returns early unless `me` and
`stream` are both present; only then does it install the `user-joined`
subscription whose handler places the outbound call (with the local stream
and the local user name as metadata) and dispatches `addPeerNameAction`.
A `user-joined` event delivered while either precondition is missing
therefore triggers nothing — no call, no dispatch — and nothing is queued or
retried: the handler installed later reacts only to future events. -/

/-- The externally visible effects one `user-joined` event can trigger. -/
inductive JoinEffect where
  | outboundCall (remoteId : String) (localStream : Stream) (metadataName : String)
  | dispatchAddName (peerId name : String)
  deriving DecidableEq, Repr

/-- The effects produced by one `user-joined {peerId, userName := name}`
event, given the availability of the local handle and local stream
(`RoomContext.tsx` lines 167-180). -/
def onUserJoined (me : Option PeerHandle) (stream : Option Stream)
    (localUserName peerId name : String) : List JoinEffect :=
  match me, stream with
  | some _, some s => [.outboundCall peerId s localUserName, .dispatchAddName peerId name]
  | _, _ => []

/-! ## The media effect's attach/detach balance

`RoomContext.tsx` lines 167-194: each run of the effect attaches one
`ws.on("user-joined", ...)` handler and one `me.on("call", ...)` handler; its
cleanup runs only `ws.off("user-joined")` (detaching every handler of that
event and nothing else).  The effect re-runs whenever `me`, `stream` or
`userName` changes. -/

/-- Counts of attached handlers: the ws `user-joined` handlers, the PeerJS
`call` handlers, and all other ws subscriptions lumped together. -/
structure HandlerCounts where
  userJoined : Nat
  call : Nat
  otherWs : Nat
  deriving DecidableEq, Repr

/-- One run of the media effect body (lines 170 and 182). -/
def mediaEffectRun (st : HandlerCounts) : HandlerCounts :=
  { st with userJoined := st.userJoined + 1, call := st.call + 1 }

/-- The media effect's cleanup (lines 191-193): only `ws.off("user-joined")`. -/
def mediaEffectCleanup (st : HandlerCounts) : HandlerCounts :=
  { st with userJoined := 0 }

/-- One re-execution of the effect: React runs the previous cleanup, then the
body. -/
def mediaEffectRerun (st : HandlerCounts) : HandlerCounts :=
  mediaEffectRun (mediaEffectCleanup st)

/-! ## Camera acquisition

`RoomContext.tsx` lines 126-132:

```
try {
  navigator.mediaDevices.getUserMedia({ video: true, audio: true }).then((stream) => {
    setStream(stream);
  });
} catch (error) {
  console.error(error);
}
```

The promise gets only a fulfillment handler; a permission denial rejects the
promise, which neither the absent `.catch` nor the surrounding `try/catch`
(which guards only synchronous throws, and neither calling `getUserMedia` nor
attaching `.then` throws synchronously) observes.  The `console.error` in the
`catch` block is therefore unreachable on denial, and the rejection surfaces
as an unhandled promise rejection. -/

/-- The outcome the browser delivers for the `getUserMedia` request. -/
inductive GetUserMediaOutcome where
  | granted (s : Stream)
  | denied (err : String)
  deriving DecidableEq, Repr

/-- What the acquisition code leaves behind: the local stream state, whether
the `catch` block logged anything, and whether the promise rejection was left
unhandled. -/
structure AcquireResult where
  stream : Option Stream
  loggedByCatch : Bool
  unhandledRejection : Bool
  deriving DecidableEq, Repr

/-- The acquisition path of `RoomContext.tsx` lines 126-132 as a function of
the browser's outcome. -/
def acquireCamera : GetUserMediaOutcome → AcquireResult
  | .granted s => ⟨some s, false, false⟩
  | .denied _ => ⟨none, false, true⟩

/-! ## The identity effect and its cleanup

`RoomContext.tsx` lines 108-157.  The effect's dependency array is
`[userId]`.  When it runs, its closure — including the cleanup function it
returns — captures the render-scope value of `me`; the `setMe(peer)` inside
the body updates state for subsequent renders but does not re-run the effect,
so the cleanup's `me?.disconnect()` acts on the captured `me`, not on the
`peer` the body created.  On the first run after `userId` becomes available,
the captured `me` is the initial `useState` value `null`. -/

/-- What one run of the identity effect installs and what its cleanup
detaches: the created peer's id (`new Peer(userId, ...)` then `setMe`), the
ws events subscribed (lines 139-144), the ws events the cleanup unsubscribes
(lines 147-153), and the id of the peer handle the cleanup disconnects
(line 154: `me?.disconnect()` on the captured `me`). -/
structure IdentityEffectResult where
  createdPeerId : Option String
  subsInstalled : List String
  cleanupOffs : List String
  cleanupDisconnectsId : Option String
  deriving DecidableEq, Repr

/-- The identity effect (`RoomContext.tsx` lines 108-157) as a function of
the render-scope `userId` and the render-scope `me` captured by its closure.
An empty `userId` is falsy: the effect returns before doing anything and
installs no cleanup. -/
def identityEffect (userId : String) (meAtRender : Option String) : IdentityEffectResult :=
  if userId = "" then ⟨none, [], [], none⟩
  else
    ⟨some userId,
     ["room-created", "get-users", "user-disconnected", "user-started-sharing",
      "user-stopped-sharing", "name-changed"],
     ["room-created", "get-users", "user-disconnected", "user-started-sharing",
      "user-stopped-sharing", "user-joined", "name-changed"],
     meAtRender⟩

end NextTalk

namespace NextTalk

/-! ## Theorems -/

/-- C1.  The `user-started-sharing` handler (`RoomContext.tsx` line 142) sets
`screenSharingId` to the event's peer id unconditionally, and the
`user-stopped-sharing` handler (line 143) clears it unconditionally,
whatever the prior state; consequently `start A; start B; stop` leaves it
empty and `start A` from the initial state leaves it equal to `A`. -/
theorem arbiter_last_writer_wins (st : RoomSessionState) (A B : String) :
    (handleWsEvent st (.userStartedSharing A)).screenSharingId = A ∧
    (handleWsEvent st (.userStoppedSharing)).screenSharingId = "" ∧
    (handleWsEvents st
      [.userStartedSharing A, .userStartedSharing B, .userStoppedSharing]).screenSharingId = "" ∧
    (handleWsEvent ⟨[], ""⟩ (.userStartedSharing A)).screenSharingId = A := by
  refine ⟨rfl, rfl, rfl, rfl⟩

/-- Looking up an id right after `Registry.remove` of that id finds nothing. -/
theorem lookup_remove_self (ps : PeerState) (id : String) :
    Registry.lookup (Registry.remove ps id) id = none := by
  unfold Registry.lookup Registry.remove
  rw [Option.map_eq_none', List.find?_eq_none]
  intro x hx
  have hne := (List.mem_filter.mp hx).2
  simp at hne ⊢
  exact hne

/-- C3.  From any state, `user-started-sharing(p2)` followed by
`user-disconnected(p2)` leaves the registry with no entry for `p2` while
`screenSharingId` still equals `p2`: the arbiter is not auto-cleared when the
current sharer disconnects (`RoomContext.tsx` lines 141-143; the removal
semantics of `peersReducer` is modelled from spec §4.1). -/
theorem sharer_disconnect_keeps_arbiter (st : RoomSessionState) :
    Registry.lookup
        (handleWsEvents st [.userStartedSharing "p2", .userDisconnected "p2"]).peers "p2" = none ∧
    (handleWsEvents st [.userStartedSharing "p2", .userDisconnected "p2"]).screenSharingId = "p2" := by
  constructor
  · exact lookup_remove_self st.peers "p2"
  · rfl

/-- `flipIfKind` preserves the track kind. -/
theorem flipIfKind_kind (k : String) (t : MediaTrack) : (flipIfKind k t).kind = t.kind := by
  unfold flipIfKind
  split <;> rfl

/-- Flipping the same kind twice restores the track. -/
theorem flipIfKind_flipIfKind (k : String) (t : MediaTrack) :
    flipIfKind k (flipIfKind k t) = t := by
  obtain ⟨kd, en⟩ := t
  by_cases h : kd = k <;> simp [flipIfKind, h]

/-- Mapping `flipIfKind k` twice over a track list restores it. -/
theorem map_flipIfKind_flipIfKind (k : String) (l : List MediaTrack) :
    (l.map (flipIfKind k)).map (flipIfKind k) = l := by
  induction l with
  | nil => rfl
  | cons t rest ih => simp [flipIfKind_flipIfKind, ih]

/-- Whether a list of tracks has a track of kind `k` is unchanged by
flipping enabled flags. -/
theorem any_kind_map_flipIfKind (k k' : String) (l : List MediaTrack) :
    ((l.map (flipIfKind k)).any (fun t => t.kind = k'))
      = l.any (fun t => t.kind = k') := by
  induction l with
  | nil => rfl
  | cons t rest ih => simp [flipIfKind_kind, ih]

/-- C7.  For every local media state, two successive `handleCameraToggle`
calls restore the state exactly: every video track's `enabled` flag and the
`isCameraOn` flag return to their original values (`RoomContext.tsx` lines
196-204). -/
theorem camera_toggle_involutive (st : LocalMedia) :
    handleCameraToggle (handleCameraToggle st) = st := by
  obtain ⟨s, cam, aud⟩ := st
  cases s with
  | none => rfl
  | some tracks =>
    simp only [handleCameraToggle]
    rw [any_kind_map_flipIfKind, map_flipIfKind_flipIfKind]
    cases h : tracks.any (fun t => t.kind = "video") <;> simp [h]

/-- C6 counterexample.  With no local stream and `isCameraOn = true`,
`handleCameraToggle` leaves `isCameraOn = true`: the flag does not flip to
its negation, refuting the claim at this concrete input. -/
theorem camera_toggle_no_stream_flag_does_not_flip :
    (handleCameraToggle ⟨none, true, true⟩).isCameraOn ≠ (!true) := by
  decide

/-- C6 amended.  When no local stream exists, `handleCameraToggle` and
`handleAudioToggle` are complete no-ops: no track is modified and the
corresponding boolean flag is left unchanged as well (the `setIsCameraOn` /
`setIsAudioOn` calls sit inside the `if (stream)` guard,
`RoomContext.tsx` lines 196-214). -/
theorem toggle_no_stream_noop (st : LocalMedia) (h : st.stream = none) :
    handleCameraToggle st = st ∧ handleAudioToggle st = st := by
  obtain ⟨s, cam, aud⟩ := st
  simp only at h
  subst h
  exact ⟨rfl, rfl⟩

/-- Witness for `toggle_no_stream_noop` at a concrete state. -/
theorem toggle_no_stream_noop_witness :
    handleCameraToggle ⟨none, true, false⟩ = ⟨none, true, false⟩ ∧
    handleAudioToggle ⟨none, true, false⟩ = ⟨none, true, false⟩ :=
  toggle_no_stream_noop ⟨none, true, false⟩ rfl

/-- C9.  `sendMessage(content, roomId, author)` at time `now` appends the
record `{content, timestamp := now, author}` to the ordered message sequence,
leaves `isChatOpen` unchanged, and emits a `send-message` event carrying the
room id and exactly that appended record (`ChatContext.tsx` lines 39-48). -/
theorem sendMessage_appends_and_emits
    (chat : ChatState) (content roomId author : String) (now : Nat) :
    (sendMessage chat content roomId author now).1.messages
      = chat.messages ++ [⟨content, now, author⟩] ∧
    (sendMessage chat content roomId author now).1.isChatOpen = chat.isChatOpen ∧
    (sendMessage chat content roomId author now).2.roomId = roomId ∧
    (sendMessage chat content roomId author now).2.messageData
      = (⟨content, now, author⟩ : IMessage) :=
  ⟨rfl, rfl, rfl, rfl⟩

/-- C2 counterexample.  With the local user `p1` currently sharing (state
`demoSharingState`), resolving the local stop path of `shareScreen` with a
fresh camera capture leaves `screenSharingId = "p1"`, not empty:
`switchStream` sets it to `me.id` (`RoomContext.tsx` line 76), so the stop
path never clears it. -/
theorem shareScreen_stop_keeps_sharing_id :
    (shareScreenResolve demoSharingState demoCamStream).screenSharingId = "p1" ∧
    (shareScreenResolve demoSharingState demoCamStream).screenSharingId ≠ "" := by
  decide

/-- C2 amended.  When the local user who is currently sharing invokes
`shareScreen` with `screenSharingId` non-empty, a fresh camera capture is
requested (`getUserMedia`), its video track is substituted in place into the
first video sender of every existing outbound connection, `screenStream` is
untouched — and `screenSharingId` is set to the local peer id `me.id`, not
cleared. -/
theorem shareScreen_stop_amended (st : ShareState) (p : PeerHandle)
    (cam : Stream) (vt : MediaTrack)
    (hshare : st.screenSharingId ≠ "") (hme : st.me = some p)
    (hvt : cam.find? (fun track => track.kind = "video") = some vt) :
    shareScreenRequest st = .getUserMedia ∧
    shareScreenResolve st cam = switchStream st cam ∧
    (shareScreenResolve st cam).screenSharingId = p.id ∧
    (shareScreenResolve st cam).me
      = some { p with
          connections := p.connections.map
            (fun c => ⟨replaceFirstVideoSender vt c.senders⟩) } ∧
    (shareScreenResolve st cam).screenStream = st.screenStream := by
  obtain ⟨meOpt, sid, ss⟩ := st
  have hme' : meOpt = some p := hme
  subst hme'
  have hsid : sid ≠ "" := hshare
  refine ⟨?_, ?_, ?_, ?_, ?_⟩ <;>
    simp [shareScreenRequest, shareScreenResolve, switchStream, hsid, hvt]

/-- Witness for `shareScreen_stop_amended` at the concrete sharing state. -/
theorem shareScreen_stop_amended_witness :
    shareScreenRequest demoSharingState = .getUserMedia ∧
    shareScreenResolve demoSharingState demoCamStream
      = switchStream demoSharingState demoCamStream ∧
    (shareScreenResolve demoSharingState demoCamStream).screenSharingId = demoPeer.id ∧
    (shareScreenResolve demoSharingState demoCamStream).me
      = some { demoPeer with
          connections := demoPeer.connections.map
            (fun c => ⟨replaceFirstVideoSender ⟨"video", true⟩ c.senders⟩) } ∧
    (shareScreenResolve demoSharingState demoCamStream).screenStream
      = demoSharingState.screenStream :=
  shareScreen_stop_amended demoSharingState demoPeer demoCamStream ⟨"video", true⟩
    (by decide) rfl rfl

/-- C4.  A `user-joined` event produces an outbound call only when both the
local peer handle and the local capture stream are available; if either is
missing the event triggers no connection attempt and no registry dispatch —
the effect's guards (`RoomContext.tsx` lines 168-169) keep the subscription
uninstalled, and nothing is queued or retried. -/
theorem user_joined_requires_stream (me : Option PeerHandle) (stream : Option Stream)
    (localUserName peerId name : String) :
    (stream = none → onUserJoined me stream localUserName peerId name = []) ∧
    (me = none → onUserJoined me stream localUserName peerId name = []) ∧
    (onUserJoined me stream localUserName peerId name ≠ [] →
      me.isSome = true ∧ stream.isSome = true) := by
  cases me <;> cases stream <;> simp [onUserJoined]

/-- Witness for `user_joined_requires_stream`: with the local stream not yet
ready, a join event produces no effect at all. -/
theorem user_joined_requires_stream_witness :
    onUserJoined (some demoPeer) none "Ann" "p3" "Cy" = [] :=
  (user_joined_requires_stream (some demoPeer) none "Ann" "p3" "Cy").1 rfl

/-- C5 evaluation at the failing input.  In the first session (`userId`
becomes `"u1"` while the captured render-scope `me` is still the initial
`null`), the identity effect creates peer `"u1"` and its cleanup detaches
every subscription it installed — but disconnects nothing: the created peer
handle is never closed, because `me?.disconnect()` acts on the stale captured
`me` (`RoomContext.tsx` lines 124, 146-155, deps `[userId]`). -/
theorem identity_cleanup_misses_created_peer :
    (identityEffect "u1" none).createdPeerId = some "u1" ∧
    (identityEffect "u1" none).cleanupDisconnectsId = none ∧
    ((identityEffect "u1" none).subsInstalled.all
      (fun e => (identityEffect "u1" none).cleanupOffs.contains e)) = true := by
  decide

/-- C8 evaluation at the failing input.  When the camera+microphone request
is denied, the acquisition path of `RoomContext.tsx` lines 126-132 leaves the
local stream absent but logs nothing — the `catch` block guards only
synchronous throws — and the promise rejection is left unhandled. -/
theorem acquireCamera_denied_eval :
    acquireCamera (.denied "NotAllowedError")
      = { stream := none, loggedByCatch := false, unhandledRejection := true } :=
  rfl

/-- C10.  The media effect's cleanup detaches only the `user-joined`
subscription (`call` handlers and all other ws subscriptions are unchanged,
`userJoined` drops to zero), so after an initial run and `n` re-executions
the number of attached `me.on("call")` handlers is the original count plus
`n + 1`: each re-execution stacks one more inbound-call handler
(`RoomContext.tsx` lines 182-193). -/
theorem media_cleanup_leaks_call_handlers (st : HandlerCounts) (n : Nat) :
    (mediaEffectCleanup st).call = st.call ∧
    (mediaEffectCleanup st).otherWs = st.otherWs ∧
    (mediaEffectCleanup st).userJoined = 0 ∧
    (mediaEffectRerun^[n] (mediaEffectRun st)).call = st.call + 1 + n := by
  refine ⟨rfl, rfl, rfl, ?_⟩
  induction n with
  | zero => rfl
  | succ k ih =>
    rw [Function.iterate_succ_apply']
    have hstep : ∀ x : HandlerCounts, (mediaEffectRerun x).call = x.call + 1 :=
      fun _ => rfl
    rw [hstep, ih]
    omega

end NextTalk
